import Mathlib

/-
  Verification of the WriteProRO GM-enhanced backend (writeproro-backendv2).

  Shallow embedding of the compliance-tracked generation pipeline in
  src/unnamed/part_000 (the GM-enhanced server): the compliance middleware,
  request validation, the Redis response cache keyed by a fingerprint of
  (vin, system, base64-prefix of techNotes), the OpenAI generation call with
  error classification, the audit writes to gm_compliance_log and
  gm_usage_log, the express-rate-limit tiers, and the compliance status
  aggregation.

  External effects are made explicit: a `World` carries the cache contents,
  the availability of Redis and of the audit database, the outcome the
  generation adapter would produce, the environment variables and the
  ambient nondeterminism (current time, generated audit id).  A run returns
  the HTTP response together with a trace of attempted effects and the rows
  actually persisted.
-/

namespace WriteProRO

/-! ## JavaScript-flavoured string helpers -/

/-- Truthiness of an optional string body field: JS `!x` is true exactly for
    `undefined` and the empty string. -/
def jsTruthy : Option String → Bool
  | none => false
  | some s => s != ""

/-- JS `x || d` for an optional string: `undefined` and `""` fall back to `d`. -/
def jsOrStr : Option String → String → String
  | none, d => d
  | some s, d => if s == "" then d else s

/-- JS `s.slice(-4)`: the last four characters (the whole string when shorter). -/
def sliceLast4 (s : String) : String :=
  String.mk (s.data.drop (s.data.length - 4))

/-- Whether `pat` occurs as a contiguous run of `l`. -/
def hasInfix (pat : List Char) : List Char → Bool
  | [] => pat.isEmpty
  | a :: t => pat.isPrefixOf (a :: t) || hasInfix pat t

/-- JS `s.includes(pat)`: substring containment. -/
def strIncludes (s pat : String) : Bool :=
  hasInfix pat.data s.data

/-- JS `parseInt(c)` on a one-character string: a digit value, `NaN` otherwise. -/
def charDigit (c : Char) : Option Nat :=
  if c.isDigit then some (c.toNat - 48) else none

/-! ## UTF-8 and base64, as used by `Buffer.from(techNotes).toString('base64')` -/

/-- UTF-8 encoding of one scalar value, as a list of byte values. -/
def utf8EncodeCharNat (c : Char) : List Nat :=
  let n := c.toNat
  if n < 128 then [n]
  else if n < 2048 then [192 + n / 64, 128 + n % 64]
  else if n < 65536 then [224 + n / 4096, 128 + n / 64 % 64, 128 + n % 64]
  else [240 + n / 262144, 128 + n / 4096 % 64, 128 + n / 64 % 64, 128 + n % 64]

/-- Byte sequence of a string under UTF-8 (what `Buffer.from` produces). -/
def utf8Bytes (s : String) : List Nat :=
  (s.data.map utf8EncodeCharNat).flatten

/-- The base64 alphabet. -/
def b64alphabet : List Char :=
  "ABCDEFGHIJKLMNOPQRSTUVWXYZabcdefghijklmnopqrstuvwxyz0123456789+/".data

/-- Character for a 6-bit group. -/
def b64char (i : Nat) : Char := b64alphabet.getD i '='

/-- Standard base64 encoding of a byte list, with `=` padding. -/
def b64encode : List Nat → List Char
  | a :: b :: c :: rest =>
    b64char (a / 4) :: b64char (a % 4 * 16 + b / 16) ::
      b64char (b % 16 * 4 + c / 64) :: b64char (c % 64) :: b64encode rest
  | [a, b] => [b64char (a / 4), b64char (a % 4 * 16 + b / 16), b64char (b % 16 * 4), '=']
  | [a] => [b64char (a / 4), b64char (a % 4 * 16), '=', '=']
  | [] => []

/-- The cache fingerprint of part_000 line 279:
    `gm-enhanced:${vin}:${system}:${Buffer.from(techNotes).toString('base64').slice(0, 20)}`. -/
def mkCacheKey (vin sys notes : String) : String :=
  "gm-enhanced:" ++ vin ++ ":" ++ sys ++ ":" ++
    String.mk ((b64encode (utf8Bytes notes)).take 20)

/-! ## Data model -/

/-- The `complianceTracking` object of the request body. -/
structure ComplianceTracking where
  userId : Option String
  gmAuthorized : Bool
  deriving DecidableEq

/-- An inbound request: routing data, headers, and the JSON body fields the
    endpoint destructures. -/
structure Request where
  path : String
  ip : String
  gmComplianceHeader : Option String
  userAgent : Option String
  vin : Option String
  system : Option String
  dtcCodes : Option String
  bacCode : Option String
  techNotes : Option String
  gmEnhancement : Bool
  technician : Option String
  dealership : Option String
  dealerCode : Option String
  complianceTracking : Option ComplianceTracking
  deriving DecidableEq

/-- Result of `getGMVehicleInfo`. -/
structure VehicleInfo where
  year : Option Nat
  make : String
  vinDecoded : Bool
  gmVehicle : Bool
  deriving DecidableEq

/-- Result of `getGMDiagnosticProtocol`. -/
structure DiagProtocol where
  protocol : String
  dtcFamily : String
  specialTools : List String
  deriving DecidableEq

/-- The `gmData` enrichment blob. -/
structure GMData where
  vehicleInfo : VehicleInfo
  diagnosticProtocol : DiagProtocol
  successRate : Nat
  timeEstimate : String
  complianceVersion : String
  attribution : String
  deriving DecidableEq

/-- A cached artifact: the JSON blob stored under the fingerprint holds the
    generated content and (possibly) the `gmData` object; `none` models a
    blob whose `gmData` is absent (read back as `{}`). -/
structure CacheVal where
  content : String
  gmData : Option GMData
  deriving DecidableEq

/-- A row of `gm_compliance_log` (an access event), including its metadata
    blob fields that are not copies of the dedicated columns. -/
structure AccessRow where
  userId : String
  endpoint : String
  ipAddress : String
  authorized : Bool
  metaUserAgent : Option String
  metaTimestamp : Nat
  deriving DecidableEq

/-- A row of `gm_usage_log` (a usage event), including its metadata blob. -/
structure UsageRow where
  userId : String
  vinLast4 : String
  system : String
  dealership : Option String
  dealerCode : Option String
  enhanced : Bool
  metaDtcCodes : Option String
  metaBacCode : Option String
  metaCached : Bool
  deriving DecidableEq

/-- Outcome the generation adapter would produce if invoked: a content string,
    or a thrown error with its `error.code` and message. -/
inductive GenResult where
  | success (content : String)
  | failure (code : Option String) (message : String)
  deriving DecidableEq

/-- Ambient state of one request's execution: cache entries (key, value,
    expiry time), availability of Redis and of the audit database, the
    generation adapter's behaviour, environment configuration, and the
    nondeterministic inputs (clock, generated audit id). -/
structure World where
  cache : List (String × CacheVal × Nat)
  redisOk : Bool
  dbOk : Bool
  gen : GenResult
  nodeEnv : String
  enableCache : Option String
  now : Nat
  auditId : String
  deriving DecidableEq

/-- The `compliance` block of a success response. -/
structure ComplianceBlock where
  attribution : String
  authorized : Bool
  tracked : Bool
  auditId : String
  deriving DecidableEq

/-- The `metadata` block of a success response. -/
structure MetaBlock where
  model : String
  timestamp : Nat
  system : String
  vinLast4 : String
  cached : Bool
  dealership : Option String
  technician : Option String
  deriving DecidableEq

/-- The `gmData` field of a success response: absent (`undefined`), the empty
    object, or a populated enrichment blob. -/
inductive GmDataField where
  | absent
  | emptyObj
  | val (g : GMData)
  deriving DecidableEq

/-- Body of a 200 response. -/
structure SuccessBody where
  content : String
  gmData : GmDataField
  compliance : ComplianceBlock
  metadata : MetaBlock
  deriving DecidableEq

/-- An HTTP response of the endpoint. -/
inductive Resp where
  | err (status : Nat) (error : String) (complianceNote : Option String) (details : Option String)
  | ok (body : SuccessBody)
  deriving DecidableEq

/-- HTTP status of a response. -/
def Resp.statusOf : Resp → Nat
  | .err s _ _ _ => s
  | .ok _ => 200

/-- The `error` field, when the response is an error. -/
def Resp.errMsg : Resp → Option String
  | .err _ e _ _ => some e
  | .ok _ => none

/-- The `details` field, when the response is an error. -/
def Resp.detailsOf : Resp → Option String
  | .err _ _ _ d => d
  | .ok _ => none

/-- The `complianceNote` field, when the response is an error. -/
def Resp.noteOf : Resp → Option String
  | .err _ _ n _ => n
  | .ok _ => none

/-- The `content` field, when the response is a success. -/
def Resp.contentOf : Resp → Option String
  | .ok b => some b.content
  | .err _ _ _ _ => none

/-- The `metadata.cached` flag, when the response is a success. -/
def Resp.cachedFlag : Resp → Option Bool
  | .ok b => some b.metadata.cached
  | .err _ _ _ _ => none

/-- The `compliance.authorized` flag, when the response is a success. -/
def Resp.authorizedFlag : Resp → Option Bool
  | .ok b => some b.compliance.authorized
  | .err _ _ _ _ => none

/-- Trace of the effects a run attempted. -/
structure Trace where
  accessWrites : List AccessRow
  usageWrites : List UsageRow
  cacheGets : List String
  cachePuts : List (String × CacheVal)
  genCalls : Nat
  deriving DecidableEq

/-- Complete observable outcome of one request: response, attempted effects,
    resulting cache contents, and the audit rows that were actually persisted
    (attempted writes succeed exactly when the audit store is reachable). -/
structure RunResult where
  resp : Resp
  trace : Trace
  cacheAfter : List (String × CacheVal × Nat)
  dbAccess : List AccessRow
  dbUsage : List UsageRow
  deriving DecidableEq

/-! ## Enrichment helpers (part_000 lines 456-521) -/

/-- Attribution string used in both the enrichment and the compliance block. -/
def attributionStr : String :=
  "Based on GM Service Information enhanced with expert analysis"

/-- Lookup table of `getGMVehicleInfo`: world-manufacturer prefix to make. -/
def gmMake (m : String) : String :=
  if m == "1G1" then "Chevrolet"
  else if m == "1G6" then "Cadillac"
  else if m == "1GM" then "GMC"
  else if m == "1GC" then "Chevrolet Truck"
  else "GM Vehicle"

/-- `getGMVehicleInfo`: year is `2010 + parseInt(vin.charAt(9))` (absent when
    that character is not a digit, where JS would produce `NaN`). -/
def gmVehicleInfo (vin : String) : VehicleInfo :=
  { year := ((vin.data.drop 9).head?.bind charDigit).map (2010 + ·)
    make := gmMake (String.mk (vin.data.take 3))
    vinDecoded := true
    gmVehicle := true }

/-- `getGMDiagnosticProtocol`: protocol label table plus the first character
    of the first comma-separated DTC code (default family `P`). -/
def gmDiagProtocol (sys : String) (dtc : Option String) : DiagProtocol :=
  { protocol :=
      if sys == "Engine" then "GM Powertrain Diagnostic Protocol P-series"
      else if sys == "Transmission" then "GM Transmission Control Module Diagnostic"
      else if sys == "Electrical" then "GM Electrical System Diagnostic Charts"
      else if sys == "HVAC" then "GM Climate Control System Diagnosis"
      else if sys == "Brakes" then "GM Brake System Safety Diagnostic"
      else if sys == "Suspension" then "GM Chassis and Suspension Diagnostic"
      else "GM Standard Diagnostic Protocol"
    dtcFamily :=
      match dtc with
      | some s => if s == "" then "P" else String.mk ((s.data.takeWhile (· != ',')).take 1)
      | none => "P"
    specialTools := ["GDS2", "GM MDI", "Tech2"] }

/-- `getGMSuccessRate`. -/
def gmSuccessRate (sys : String) : Nat :=
  if sys == "Engine" then 94
  else if sys == "Transmission" then 89
  else if sys == "Electrical" then 92
  else if sys == "HVAC" then 96
  else if sys == "Brakes" then 98
  else if sys == "Suspension" then 91
  else if sys == "Emissions" then 93
  else if sys == "Fuel" then 95
  else 93

/-- `getGMTimeEstimate`. -/
def gmTimeEstimate (sys : String) : String :=
  if sys == "Engine" then "2.5 hours"
  else if sys == "Transmission" then "3.5 hours"
  else if sys == "Electrical" then "2.0 hours"
  else if sys == "HVAC" then "1.5 hours"
  else if sys == "Brakes" then "1.0 hours"
  else if sys == "Suspension" then "2.0 hours"
  else if sys == "Emissions" then "2.8 hours"
  else if sys == "Fuel" then "2.2 hours"
  else "2.5 hours"

/-- The `gmData` enrichment assembled on a cache miss (part_000 lines 310-317). -/
def mkGMData (vin sys : String) (dtc : Option String) : GMData :=
  { vehicleInfo := gmVehicleInfo vin
    diagnosticProtocol := gmDiagProtocol sys dtc
    successRate := gmSuccessRate sys
    timeEstimate := gmTimeEstimate sys
    complianceVersion := "2024.1"
    attribution := attributionStr }

/-! ## Compliance middleware and the enhanced generation endpoint -/

/-- `gmComplianceMiddleware` line 105: a request is GM-tagged when its path
    contains `gm-enhanced` or it carries the header `gm-compliance: true`. -/
def isGMRequest (r : Request) : Bool :=
  strIncludes r.path "gm-enhanced" || r.gmComplianceHeader == some "true"

/-- The access event the middleware records for a GM-tagged request
    (columns of the `gm_compliance_log` insert plus the metadata blob). -/
def accessRowOf (w : World) (r : Request) : AccessRow :=
  { userId := jsOrStr (r.complianceTracking.bind (·.userId)) "anonymous"
    endpoint := r.path
    ipAddress := r.ip
    authorized := r.gmComplianceHeader == some "true"
    metaUserAgent := r.userAgent
    metaTimestamp := w.now }

/-- Access events the middleware attempts for this request. -/
def accessList (w : World) (r : Request) : List AccessRow :=
  if isGMRequest r then [accessRowOf w r] else []

/-- Attempted audit rows that actually reach the store. -/
def dbList {α : Type} (w : World) (rows : List α) : List α :=
  if w.dbOk then rows else []

/-- The usage event of the `gm_usage_log` insert (part_000 lines 343-359). -/
def usageRowOf (r : Request) (vin sys : String) (cachedFlag : Bool) : UsageRow :=
  { userId := jsOrStr (r.complianceTracking.bind (·.userId)) "anonymous"
    vinLast4 := sliceLast4 vin
    system := sys
    dealership := r.dealership
    dealerCode := r.dealerCode
    enhanced := r.gmEnhancement
    metaDtcCodes := r.dtcCodes
    metaBacCode := r.bacCode
    metaCached := cachedFlag }

/-- Live cache lookup: an entry is served while the clock is before its expiry. -/
def lookupLive (cache : List (String × CacheVal × Nat)) (k : String) (now : Nat) :
    Option CacheVal :=
  match cache.find? (fun e => e.1 == k) with
  | some e => if now < e.2.2 then some e.2.1 else none
  | none => none

/-- `redisClient.get(cacheKey)` including its catch: an unreachable Redis
    leaves `cachedResponse` null. -/
def cachedOf (w : World) (key : String) : Option CacheVal :=
  if w.redisOk then lookupLive w.cache key w.now else none

/-- The success envelope (part_000 lines 361-380). -/
def successResp (w : World) (r : Request) (vin sys content : String)
    (gd : Option GMData) (cachedFlag : Bool) : Resp :=
  .ok
    { content := content
      gmData :=
        if r.gmEnhancement then
          match gd with
          | some g => .val g
          | none => .emptyObj
        else .absent
      compliance :=
        { attribution := attributionStr
          authorized :=
            match r.complianceTracking with
            | some t => t.gmAuthorized
            | none => false
          tracked := true
          auditId := w.auditId }
      metadata :=
        { model := "gpt-4-gm-enhanced"
          timestamp := w.now
          system := sys
          vinLast4 := sliceLast4 vin
          cached := cachedFlag
          dealership := r.dealership
          technician := r.technician } }

/-- The catch block (part_000 lines 382-405): classify a generation failure
    by its `error.code`. -/
def classifyError (w : World) (code : Option String) (msg : String) : Resp :=
  if code == some "insufficient_quota" then
    .err 402 "OpenAI API quota exceeded" (some "GM SI processing temporarily unavailable") none
  else if code == some "invalid_api_key" then
    .err 401 "Invalid OpenAI API key configuration"
      (some "GM SI integration authentication failed") none
  else
    .err 500 "Internal server error during GM-enhanced generation"
      (some "GM SI processing error logged for review")
      (if w.nodeEnv == "development" then some msg else none)

/-- Generation path taken when the cached response is absent or the cache
    feature flag is off: invoke the adapter, then on success enrich, store,
    and emit the usage event; on failure classify and respond. -/
def gmGenerate (w : World) (r : Request) (vin sys key : String)
    (acc : List AccessRow) (cachedFlag : Bool) : RunResult :=
  match w.gen with
  | .failure c m =>
    { resp := classifyError w c m
      trace :=
        { accessWrites := acc, usageWrites := [], cacheGets := [key],
          cachePuts := [], genCalls := 1 }
      cacheAfter := w.cache
      dbAccess := dbList w acc
      dbUsage := [] }
  | .success content =>
    { resp := successResp w r vin sys content (some (mkGMData vin sys r.dtcCodes)) cachedFlag
      trace :=
        { accessWrites := acc, usageWrites := [usageRowOf r vin sys cachedFlag],
          cacheGets := [key],
          cachePuts := [(key, ⟨content, some (mkGMData vin sys r.dtcCodes)⟩)], genCalls := 1 }
      cacheAfter :=
        if w.redisOk then
          (key, ⟨content, some (mkGMData vin sys r.dtcCodes)⟩, w.now + 3600) :: w.cache
        else w.cache
      dbAccess := dbList w acc
      dbUsage := dbList w [usageRowOf r vin sys cachedFlag] }

/-- Core of the endpoint after validation: fingerprint, cache consult, then
    serve from cache (only when `ENABLE_CACHE` is `'true'`) or generate.
    The `metadata.cached` flag is `!!cachedResponse`, so it is `true` whenever
    an entry was found, even if the feature flag forced regeneration. -/
def gmCore (w : World) (r : Request) (vin sys notes : String) : RunResult :=
  match cachedOf w (mkCacheKey vin sys notes) with
  | some cv =>
    if w.enableCache == some "true" then
      { resp := successResp w r vin sys cv.content cv.gmData true
        trace :=
          { accessWrites := accessList w r, usageWrites := [usageRowOf r vin sys true],
            cacheGets := [mkCacheKey vin sys notes], cachePuts := [], genCalls := 0 }
        cacheAfter := w.cache
        dbAccess := dbList w (accessList w r)
        dbUsage := dbList w [usageRowOf r vin sys true] }
    else gmGenerate w r vin sys (mkCacheKey vin sys notes) (accessList w r) true
  | none => gmGenerate w r vin sys (mkCacheKey vin sys notes) (accessList w r) false

/-- A 400 rejection from the validation step: no cache, generation or usage
    work has happened; the middleware's access event (if any) already has. -/
def reject400 (w : World) (r : Request) (msg : String) : RunResult :=
  { resp := .err 400 msg none none
    trace :=
      { accessWrites := accessList w r, usageWrites := [], cacheGets := [],
        cachePuts := [], genCalls := 0 }
    cacheAfter := w.cache
    dbAccess := dbList w (accessList w r)
    dbUsage := [] }

/-- Required-field validation: `!vin || !system || !techNotes`. -/
def validationOk (r : Request) : Bool :=
  jsTruthy r.vin && jsTruthy r.system && jsTruthy r.techNotes

/-- One request through the middleware chain and
    `POST /api/generate-gm-enhanced-documentation`. -/
def gmRun (w : World) (r : Request) : RunResult :=
  if validationOk r then
    if (r.vin.getD "").length == 17 then
      gmCore w r (r.vin.getD "") (r.system.getD "") (r.techNotes.getD "")
    else reject400 w r "VIN must be exactly 17 characters"
  else reject400 w r "Missing required fields: vin, system, techNotes"

/-! ## Rate governor (part_000 lines 59-78)

    `app.use('/api/gm-', gmComplianceLimit)` and `app.use('/api/', generalLimit)`.
    Express mounts a middleware at a path prefix that must end at the mount
    boundary: mount `m` matches a request path `p` when `p = m` or `m ++ "/"`
    is a prefix of `p` (Express treats a trailing slash of the mount itself as
    optional, so `'/api/'` behaves as `'/api'`).  Each limiter keeps one
    counter per caller key inside the current 15-minute window, increments it
    on every request it sees, and rejects when the incremented count exceeds
    its ceiling. -/

/-- Outcome of the rate-limiting middleware chain. -/
inductive RateOutcome where
  | allowed
  | rejectedElevated
  | rejectedGeneral
  deriving DecidableEq

/-- Per-policy counters of the current window, per caller key. -/
structure RateState where
  gm : String → Nat
  general : String → Nat

/-- Increment a per-key counter. -/
def bumpCnt (f : String → Nat) (k : String) : String → Nat :=
  fun x => if x = k then f k + 1 else f x

/-- Express mount matching (boundary-respecting prefix). -/
def mountMatches (mount path : String) : Bool :=
  path == mount || (mount ++ "/").data.isPrefixOf path.data

/-- Mount path of the elevated (GM compliance) limiter. -/
def elevatedMount : String := "/api/gm-"

/-- Mount path of the general limiter (`'/api/'` with its optional trailing
    slash stripped). -/
def generalMount : String := "/api"

/-- The general limiter. -/
def generalCheck (genMax : Nat) (st : RateState) (k path : String) :
    RateOutcome × RateState :=
  if mountMatches generalMount path then
    let st1 : RateState := { st with general := bumpCnt st.general k }
    (if st.general k + 1 ≤ genMax then .allowed else .rejectedGeneral, st1)
  else (.allowed, st)

/-- Both limiters in registration order: the elevated limiter runs first and,
    when it rejects, the general limiter is never reached. -/
def rateGovern (gmMax genMax : Nat) (st : RateState) (k path : String) :
    RateOutcome × RateState :=
  if mountMatches elevatedMount path then
    let st1 : RateState := { st with gm := bumpCnt st.gm k }
    if st.gm k + 1 ≤ gmMax then generalCheck genMax st1 k path
    else (.rejectedElevated, st1)
  else generalCheck genMax st k path

/-- A sequence of requests `(key, path)` through the governor. -/
def rateRunSeq (gmMax genMax : Nat) (st : RateState) :
    List (String × String) → List RateOutcome × RateState
  | [] => ([], st)
  | q :: rest =>
    let o := rateGovern gmMax genMax st q.1 q.2
    let os := rateRunSeq gmMax genMax o.2 rest
    (o.1 :: os.1, os.2)

/-! ## Compliance status aggregation (part_000 lines 172-195) -/

/-- Rounded percentage `Math.round((a / t) * 100)` on counts, as exact
    rational rounding (floor of `100 a / t + 1 / 2`). -/
def roundPct (a t : Nat) : Nat := (200 * a + t) / (2 * t)

/-- The aggregate of `GET /api/gm-compliance/status` over the window's access
    events (each event reduced to its `authorized` flag). -/
structure StatusView where
  complianceScore : Nat
  totalRequests : Nat
  authorizedRequests : Nat
  attributionRate : Nat
  licenseStatus : String
  deriving DecidableEq

/-- `complianceScore`: rounded authorized percentage, defaulting to 100 for an
    empty window. -/
def complianceScoreOf (evs : List Bool) : Nat :=
  if 0 < evs.length then roundPct (evs.countP (fun b => b)) evs.length else 100

/-- The status endpoint's response body. -/
def complianceStatus (evs : List Bool) : StatusView :=
  { complianceScore := complianceScoreOf evs
    totalRequests := evs.length
    authorizedRequests := evs.countP (fun b => b)
    attributionRate := 100
    licenseStatus := "Active" }

/-! ## Theorems -/

/-- Base64 output consumed in 4-character blocks depends only on the
    corresponding 3-byte blocks of the input: the first `4 * k` characters of
    the encoding are the encoding of the first `3 * k` bytes. -/
theorem b64encode_take_eq (k : Nat) :
    ∀ l : List Nat, (b64encode l).take (4 * k) = b64encode (l.take (3 * k)) := by
  induction k with
  | zero => intro l; simp [b64encode]
  | succ m ih =>
    intro l
    have e3 : 3 * (m + 1) = 3 * m + 1 + 1 + 1 := by ring
    have e4 : 4 * (m + 1) = 4 * m + 1 + 1 + 1 + 1 := by ring
    rw [e3, e4]
    match l with
    | [] => simp [b64encode]
    | [a] =>
      simp [b64encode, List.take_succ_cons]
    | [a, b] =>
      simp [b64encode, List.take_succ_cons]
    | a :: b :: c :: rest =>
      simp only [b64encode, List.take_succ_cons]
      rw [ih rest]

/-- C5: the fingerprint is a pure function of (vehicle identifier, subsystem,
    notes), and two requests sharing identifier, subsystem, and the first 15
    UTF-8 bytes of their notes (the configured truncation: 20 base64
    characters cover exactly 15 input bytes) receive the same fingerprint,
    even when the notes differ beyond that prefix. -/
theorem c5_fingerprint_prefix (vin sys n1 n2 : String)
    (h : (utf8Bytes n1).take 15 = (utf8Bytes n2).take 15) :
    mkCacheKey vin sys n1 = mkCacheKey vin sys n2 := by
  unfold mkCacheKey
  have h1 := b64encode_take_eq 5 (utf8Bytes n1)
  have h2 := b64encode_take_eq 5 (utf8Bytes n2)
  norm_num at h1 h2
  rw [h1, h2, h]

/-- Witness for C5 at concrete inputs whose notes share a 15-byte prefix but
    differ afterwards. -/
theorem c5_fingerprint_prefix_witness :
    (utf8Bytes "misfire under load").take 15 = (utf8Bytes "misfire under little").take 15 ∧
    mkCacheKey "1HGBH41JXMN109186" "Engine" "misfire under load" =
      mkCacheKey "1HGBH41JXMN109186" "Engine" "misfire under little" :=
  ⟨by decide, c5_fingerprint_prefix _ _ _ _ (by decide)⟩

/-- C8: the compliance status aggregation scores a window as the rounded
    percentage of authorized access events among all access events, the score
    never exceeds 100, and a window with zero events scores 100 (the division
    is never attempted there). -/
theorem c8_compliance_score (evs : List Bool) (h : evs ≠ []) :
    (complianceStatus evs).complianceScore =
      roundPct (complianceStatus evs).authorizedRequests (complianceStatus evs).totalRequests ∧
    (complianceStatus evs).complianceScore ≤ 100 ∧
    (complianceStatus []).complianceScore = 100 := by
  have hlen : 0 < evs.length := List.length_pos.mpr h
  refine ⟨by simp [complianceStatus, complianceScoreOf, hlen], ?_, rfl⟩
  simp only [complianceStatus, complianceScoreOf, hlen, if_pos]
  unfold roundPct
  have hat : evs.countP (fun b => b) ≤ evs.length := List.countP_le_length _
  calc (200 * evs.countP (fun b => b) + evs.length) / (2 * evs.length)
      ≤ (2 * evs.length * 100 + evs.length) / (2 * evs.length) :=
        Nat.div_le_div_right (by omega)
    _ = 100 + evs.length / (2 * evs.length) := Nat.mul_add_div (by omega) 100 evs.length
    _ = 100 := by rw [Nat.div_eq_of_lt (by omega)]

/-- Witness for C8 on a three-event window with one authorized event. -/
theorem c8_compliance_score_witness :
    ([true, false, false] : List Bool) ≠ [] ∧
    ((complianceStatus [true, false, false]).complianceScore =
        roundPct (complianceStatus [true, false, false]).authorizedRequests
          (complianceStatus [true, false, false]).totalRequests ∧
      (complianceStatus [true, false, false]).complianceScore ≤ 100 ∧
      (complianceStatus []).complianceScore = 100) :=
  ⟨by decide, c8_compliance_score [true, false, false] (by decide)⟩

/-- Counters of the elevated policy only grow, so a key at or above the
    elevated ceiling stays there: every further elevated request from that
    key inside the window is rejected by the elevated limiter. -/
theorem rateSeq_rejectedElevated (gmMax genMax : Nat) (k : String) :
    ∀ (ps : List String) (st : RateState),
      (∀ q ∈ ps, mountMatches elevatedMount q = true) →
      gmMax ≤ st.gm k →
      (rateRunSeq gmMax genMax st (ps.map (fun p => (k, p)))).1 =
        List.replicate ps.length RateOutcome.rejectedElevated := by
  intro ps
  induction ps with
  | nil => intro st _ _; rfl
  | cons p rest ih =>
    intro st hall hceil
    have hp : mountMatches elevatedMount p = true := hall p (by simp)
    have hnot : ¬ (st.gm k + 1 ≤ gmMax) := by omega
    simp only [List.map_cons, rateRunSeq, rateGovern, hp, if_true, if_neg hnot,
      List.length_cons, List.replicate_succ, List.cons.injEq, true_and]
    apply ih
    · intro q hq
      exact hall q (by simp [hq])
    · show gmMax ≤ bumpCnt st.gm k k
      unfold bumpCnt
      rw [if_pos rfl]
      omega

/-- C6: on an elevated-compliance path (one matching the `/api/gm-` mount)
    the request passes through both limiters, and once a caller key's
    elevated counter has reached the elevated ceiling, the request and every
    further elevated request from that key inside the window are rejected by
    the elevated limiter — even while the general ceiling still has headroom. -/
theorem c6_elevated_ceiling (gmMax genMax : Nat) (st : RateState) (k path : String)
    (ps : List String)
    (hpath : mountMatches elevatedMount path = true)
    (hps : ∀ q ∈ ps, mountMatches elevatedMount q = true)
    (hceil : gmMax ≤ st.gm k)
    (_hroom : st.general k + 1 ≤ genMax) :
    (rateRunSeq gmMax genMax st ((path :: ps).map (fun p => (k, p)))).1 =
      List.replicate (ps.length + 1) RateOutcome.rejectedElevated := by
  have h := rateSeq_rejectedElevated gmMax genMax k (path :: ps) st ?_ hceil
  · simpa using h
  · intro q hq
    rcases List.mem_cons.mp hq with hq | hq
    · exact hq ▸ hpath
    · exact hps q hq

/-- Witness for C6: the elevated ceiling (50) is reached while the general
    counter (0) is far below its ceiling (100); two further elevated requests
    are both rejected by the elevated limiter. -/
theorem c6_elevated_ceiling_witness :
    mountMatches elevatedMount "/api/gm-/doc" = true ∧
    (rateRunSeq 50 100 ⟨fun _ => 50, fun _ => 0⟩
        (["/api/gm-/doc", "/api/gm-/doc2"].map (fun p => ("10.0.0.7", p)))).1 =
      List.replicate 2 RateOutcome.rejectedElevated :=
  ⟨by decide,
    c6_elevated_ceiling 50 100 ⟨fun _ => 50, fun _ => 0⟩ "10.0.0.7" "/api/gm-/doc"
      ["/api/gm-/doc2"] (by decide)
      (by intro q hq; simp only [List.mem_singleton] at hq; subst hq; decide)
      (by decide) (by decide)⟩

/-! ### Concrete worlds and requests used by witnesses and counterexamples -/

/-- A nominal world: empty live cache, all backends reachable, caching
    enabled, generation succeeding. -/
def wBase : World :=
  { cache := [], redisOk := true, dbOk := true, gen := .success "DOC",
    nodeEnv := "production", enableCache := some "true", now := 1000, auditId := "A1" }

/-- A nominal valid request to the enhanced endpoint. -/
def rBase : Request :=
  { path := "/api/generate-gm-enhanced-documentation", ip := "1.2.3.4",
    gmComplianceHeader := some "true", userAgent := some "UA",
    vin := some "1HGBH41JXMN109186", system := some "Engine",
    dtcCodes := some "P0300", bacCode := none,
    techNotes := some "misfire under load", gmEnhancement := true,
    technician := some "T", dealership := some "D", dealerCode := some "DC",
    complianceTracking := none }

/-! ### C1 -/

/-- C1 is refuted: the request with the 8-character identifier `SHORT123` on
    the elevated path is rejected with 400, yet an access event has already
    been persisted to the audit trail by the compliance middleware, which
    runs before validation. -/
theorem c1_counterexample :
    (gmRun wBase { rBase with vin := some "SHORT123" }).resp.statusOf = 400 ∧
    (gmRun wBase { rBase with vin := some "SHORT123" }).resp.errMsg =
      some "VIN must be exactly 17 characters" ∧
    (gmRun wBase { rBase with vin := some "SHORT123" }).dbAccess ≠ [] := by
  refine ⟨by decide, by decide, ?_⟩
  decide

/-- C1 (amended): a request whose vehicle identifier has length other than 17
    terminates with a 400 response carrying a field-specific error message and
    performs no cache lookup, no cache store, no generation call and no
    usage-event write; however, on a GM-tagged (elevated-compliance) request
    the compliance middleware records exactly one access event before
    validation, so the audit trail is not untouched. -/
theorem c1_amended (w : World) (r : Request) (v : String)
    (hv : r.vin = some v) (hlen : v.length ≠ 17) :
    (gmRun w r).resp.statusOf = 400 ∧
    ((gmRun w r).resp.errMsg = some "Missing required fields: vin, system, techNotes" ∨
      (gmRun w r).resp.errMsg = some "VIN must be exactly 17 characters") ∧
    (gmRun w r).trace.cacheGets = [] ∧
    (gmRun w r).trace.cachePuts = [] ∧
    (gmRun w r).trace.genCalls = 0 ∧
    (gmRun w r).trace.usageWrites = [] ∧
    (gmRun w r).trace.accessWrites = (if isGMRequest r then [accessRowOf w r] else []) := by
  unfold gmRun
  by_cases hval : validationOk r <;>
    simp [hval, hv, hlen, reject400, accessList, Resp.statusOf, Resp.errMsg]

/-- Witness for the amended C1 at the `SHORT123` scenario. -/
theorem c1_amended_witness :
    ({ rBase with vin := some "SHORT123" } : Request).vin = some "SHORT123" ∧
    ("SHORT123" : String).length ≠ 17 ∧
    ((gmRun wBase { rBase with vin := some "SHORT123" }).resp.statusOf = 400 ∧
      ((gmRun wBase { rBase with vin := some "SHORT123" }).resp.errMsg =
          some "Missing required fields: vin, system, techNotes" ∨
        (gmRun wBase { rBase with vin := some "SHORT123" }).resp.errMsg =
          some "VIN must be exactly 17 characters") ∧
      (gmRun wBase { rBase with vin := some "SHORT123" }).trace.cacheGets = [] ∧
      (gmRun wBase { rBase with vin := some "SHORT123" }).trace.cachePuts = [] ∧
      (gmRun wBase { rBase with vin := some "SHORT123" }).trace.genCalls = 0 ∧
      (gmRun wBase { rBase with vin := some "SHORT123" }).trace.usageWrites = [] ∧
      (gmRun wBase { rBase with vin := some "SHORT123" }).trace.accessWrites =
        (if isGMRequest { rBase with vin := some "SHORT123" } then
          [accessRowOf wBase { rBase with vin := some "SHORT123" }] else [])) :=
  ⟨rfl, by decide, c1_amended wBase { rBase with vin := some "SHORT123" } "SHORT123" rfl (by decide)⟩

/-! ### C9 -/

/-- Map a present-but-empty body field to an absent one. -/
def blankToNone : Option String → Option String
  | some s => if s == "" then none else some s
  | none => none

/-- The request with empty required fields removed from the body. -/
def scrubBlank (r : Request) : Request :=
  { r with vin := blankToNone r.vin, system := blankToNone r.system,
           techNotes := blankToNone r.techNotes }

/-- Required-field truthiness is blind to the difference between an empty and
    an absent field. -/
theorem jsTruthy_blankToNone (o : Option String) : jsTruthy (blankToNone o) = jsTruthy o := by
  match o with
  | none => rfl
  | some s =>
    by_cases hs : s == ""
    · have hs' : s = "" := by simpa using hs
      subst hs'
      rfl
    · simp [blankToNone, jsTruthy, hs]

/-- C9: a request in which any required field (vin, system, techNotes) is the
    empty string is rejected with 400 and the missing-fields message before
    any cache or generation work — behaving exactly as if the empty fields
    were absent from the body. -/
theorem c9_empty_required_field (w : World) (r : Request)
    (h : r.vin = some "" ∨ r.system = some "" ∨ r.techNotes = some "") :
    (gmRun w r).resp =
      .err 400 "Missing required fields: vin, system, techNotes" none none ∧
    (gmRun w r).trace.genCalls = 0 ∧
    (gmRun w r).trace.cacheGets = [] ∧
    (gmRun w r).trace.usageWrites = [] ∧
    gmRun w r = gmRun w (scrubBlank r) := by
  have hval : validationOk r = false := by
    rcases h with h | h | h <;> simp [validationOk, h, jsTruthy]
  have hval2 : validationOk (scrubBlank r) = false := by
    simp only [validationOk, scrubBlank] at hval ⊢
    simpa [jsTruthy_blankToNone] using hval
  have e1 : isGMRequest (scrubBlank r) = isGMRequest r := rfl
  have e2 : accessRowOf w (scrubBlank r) = accessRowOf w r := rfl
  refine ⟨?_, ?_, ?_, ?_, ?_⟩ <;>
    simp [gmRun, hval, hval2, reject400, accessList, e1, e2]

/-- Witness for C9: an empty `techNotes` field. -/
theorem c9_empty_required_field_witness :
    (({ rBase with techNotes := some "" } : Request).vin = some "" ∨
      ({ rBase with techNotes := some "" } : Request).system = some "" ∨
      ({ rBase with techNotes := some "" } : Request).techNotes = some "") ∧
    ((gmRun wBase { rBase with techNotes := some "" }).resp =
        .err 400 "Missing required fields: vin, system, techNotes" none none ∧
      (gmRun wBase { rBase with techNotes := some "" }).trace.genCalls = 0 ∧
      (gmRun wBase { rBase with techNotes := some "" }).trace.cacheGets = [] ∧
      (gmRun wBase { rBase with techNotes := some "" }).trace.usageWrites = [] ∧
      gmRun wBase { rBase with techNotes := some "" } =
        gmRun wBase (scrubBlank { rBase with techNotes := some "" })) :=
  ⟨Or.inr (Or.inr rfl),
    c9_empty_required_field wBase { rBase with techNotes := some "" }
      (Or.inr (Or.inr rfl))⟩

/-! ### C4 -/

/-- The generation path produces the same response whatever the availability
    of the audit store (it only consults the adapter outcome, the
    environment, the clock and the audit-id source). -/
theorem gmGenerate_resp_dbOk (w : World) (b : Bool) (r : Request)
    (vin sys key : String) (acc acc2 : List AccessRow) (flag : Bool) :
    (gmGenerate { w with dbOk := b } r vin sys key acc flag).resp =
      (gmGenerate w r vin sys key acc2 flag).resp := by
  unfold gmGenerate
  dsimp only
  cases w.gen <;> rfl

/-- The post-validation core produces the same response whatever the
    availability of the audit store. -/
theorem gmCore_resp_dbOk (w : World) (b : Bool) (r : Request) (vin sys notes : String) :
    (gmCore { w with dbOk := b } r vin sys notes).resp = (gmCore w r vin sys notes).resp := by
  unfold gmCore
  have ec : cachedOf { w with dbOk := b } (mkCacheKey vin sys notes) =
      cachedOf w (mkCacheKey vin sys notes) := rfl
  rw [ec]
  cases hc : cachedOf w (mkCacheKey vin sys notes) with
  | none => exact gmGenerate_resp_dbOk w b r vin sys (mkCacheKey vin sys notes) _ _ false
  | some cv =>
    by_cases he : (w.enableCache == some "true") = true
    · rw [he]
      rfl
    · rw [Bool.eq_false_iff.mpr he]
      exact gmGenerate_resp_dbOk w b r vin sys (mkCacheKey vin sys notes) _ _ true

/-- The whole pipeline produces the same response whatever the availability
    of the audit store. -/
theorem gmRun_resp_dbOk (w : World) (b : Bool) (r : Request) :
    (gmRun { w with dbOk := b } r).resp = (gmRun w r).resp := by
  unfold gmRun
  by_cases hval : validationOk r = true
  · rw [hval]
    by_cases hlen : ((r.vin.getD "").length == 17) = true
    · rw [hlen]
      exact gmCore_resp_dbOk w b r _ _ _
    · rw [Bool.eq_false_iff.mpr hlen]
      rfl
  · rw [Bool.eq_false_iff.mpr hval]
    rfl

/-- C4: an unreachable audit store (every audit write failing) leaves the
    HTTP status and body of the response unchanged relative to a reachable
    store, for every request and world: the audit-write failure is absorbed
    and never propagates to the caller. -/
theorem c4_audit_failure_transparent (w : World) (r : Request) :
    (gmRun { w with dbOk := false } r).resp = (gmRun { w with dbOk := true } r).resp :=
  (gmRun_resp_dbOk w false r).trans (gmRun_resp_dbOk w true r).symm

/-! ### C7 -/

/-- A string of length 17 is nonempty. -/
theorem ne_empty_of_length17 (v : String) (h : v.length = 17) : v ≠ "" := by
  intro he
  rw [he] at h
  exact absurd h (by decide)

/-- Validation passes for a request whose three required fields are present
    and nonempty. -/
theorem validationOk_of_fields (r : Request) (v s n : String)
    (hv : r.vin = some v) (hs : r.system = some s) (hn : r.techNotes = some n)
    (hvne : v ≠ "") (hsne : s ≠ "") (hnne : n ≠ "") : validationOk r = true := by
  simp [validationOk, hv, hs, hn, jsTruthy, hvne, hsne, hnne]

/-- On a validated request with no effective cache hit, the run's response is
    the classified generation outcome; a failure is routed to the catch
    block. -/
theorem gmRun_resp_failure (w : World) (r : Request) (v s n : String)
    (code : Option String) (msg : String)
    (hv : r.vin = some v) (hs : r.system = some s) (hn : r.techNotes = some n)
    (hlen : v.length = 17) (hsne : s ≠ "") (hnne : n ≠ "")
    (hgen : w.gen = .failure code msg)
    (hnohit : cachedOf w (mkCacheKey v s n) = none ∨ w.enableCache ≠ some "true") :
    (gmRun w r).resp = classifyError w code msg := by
  have hval := validationOk_of_fields r v s n hv hs hn (ne_empty_of_length17 v hlen) hsne hnne
  unfold gmRun
  rw [hval]
  have hget : (r.vin.getD "") = v := by rw [hv]; rfl
  have hlen17 : ((r.vin.getD "").length == 17) = true := by
    rw [hget]
    simpa using hlen
  rw [hlen17]
  simp only [if_true]
  have hgets : (r.system.getD "") = s := by rw [hs]; rfl
  have hgetn : (r.techNotes.getD "") = n := by rw [hn]; rfl
  rw [hget, hgets, hgetn]
  unfold gmCore
  rcases hnohit with hmiss | hflag
  · rw [hmiss]
    unfold gmGenerate
    rw [hgen]
  · have hf : (w.enableCache == some "true") = false := by
      simpa using hflag
    cases hc : cachedOf w (mkCacheKey v s n) with
    | none =>
      unfold gmGenerate
      rw [hgen]
    | some cv =>
      rw [hf]
      simp only [Bool.false_eq_true, if_false]
      unfold gmGenerate
      rw [hgen]

/-- C7: a failed generation call is classified by its failure kind —
    quota-exhausted yields 402, an invalid upstream credential yields 401,
    anything else yields 500 with a generic message and a compliance note;
    full error detail appears in the body exactly when `NODE_ENV` is
    `development`, hence only in a non-production mode and never in
    production. -/
theorem c7_error_classification (w : World) (r : Request) (v s n : String)
    (code : Option String) (msg : String)
    (hv : r.vin = some v) (hs : r.system = some s) (hn : r.techNotes = some n)
    (hlen : v.length = 17) (hsne : s ≠ "") (hnne : n ≠ "")
    (hgen : w.gen = .failure code msg)
    (hnohit : cachedOf w (mkCacheKey v s n) = none ∨ w.enableCache ≠ some "true") :
    (gmRun w r).resp = classifyError w code msg ∧
    (code = some "insufficient_quota" →
      (gmRun w r).resp.statusOf = 402 ∧
      (gmRun w r).resp.errMsg = some "OpenAI API quota exceeded" ∧
      (gmRun w r).resp.noteOf = some "GM SI processing temporarily unavailable") ∧
    (code = some "invalid_api_key" →
      (gmRun w r).resp.statusOf = 401 ∧
      (gmRun w r).resp.errMsg = some "Invalid OpenAI API key configuration" ∧
      (gmRun w r).resp.noteOf = some "GM SI integration authentication failed") ∧
    (code ≠ some "insufficient_quota" → code ≠ some "invalid_api_key" →
      (gmRun w r).resp.statusOf = 500 ∧
      (gmRun w r).resp.errMsg = some "Internal server error during GM-enhanced generation" ∧
      (gmRun w r).resp.noteOf = some "GM SI processing error logged for review" ∧
      (gmRun w r).resp.detailsOf =
        (if w.nodeEnv == "development" then some msg else none)) ∧
    (w.nodeEnv = "production" → (gmRun w r).resp.detailsOf = none) ∧
    ((gmRun w r).resp.detailsOf ≠ none → w.nodeEnv ≠ "production") := by
  have hresp := gmRun_resp_failure w r v s n code msg hv hs hn hlen hsne hnne hgen hnohit
  rw [hresp]
  refine ⟨rfl, ?_, ?_, ?_, ?_, ?_⟩
  · intro hq
    subst hq
    exact ⟨rfl, rfl, rfl⟩
  · intro hq
    subst hq
    exact ⟨rfl, rfl, rfl⟩
  · intro h1 h2
    have b1 : (code == some "insufficient_quota") = false := by simpa using h1
    have b2 : (code == some "invalid_api_key") = false := by simpa using h2
    unfold classifyError
    rw [b1, b2]
    simp only [Bool.false_eq_true, if_false]
    exact ⟨rfl, rfl, rfl, rfl⟩
  · intro hprod
    have hdev : (w.nodeEnv == "development") = false := by simp [hprod]
    unfold classifyError
    by_cases b1 : (code == some "insufficient_quota") = true
    · rw [b1]; rfl
    · rw [Bool.eq_false_iff.mpr b1]
      by_cases b2 : (code == some "invalid_api_key") = true
      · rw [b2]; rfl
      · rw [Bool.eq_false_iff.mpr b2]
        simp [Resp.detailsOf, hdev]
  · intro hd hprod
    apply hd
    have hdev : (w.nodeEnv == "development") = false := by simp [hprod]
    unfold classifyError
    by_cases b1 : (code == some "insufficient_quota") = true
    · rw [b1]; rfl
    · rw [Bool.eq_false_iff.mpr b1]
      by_cases b2 : (code == some "invalid_api_key") = true
      · rw [b2]; rfl
      · rw [Bool.eq_false_iff.mpr b2]
        simp [Resp.detailsOf, hdev]

/-- Witness for C7: an unclassified adapter failure in production yields 500
    with the generic message, a compliance note, and no error detail. -/
theorem c7_error_classification_witness :
    ({ wBase with gen := .failure none "boom" } : World).gen = .failure none "boom" ∧
    (gmRun { wBase with gen := .failure none "boom" } rBase).resp =
      classifyError { wBase with gen := .failure none "boom" } none "boom" ∧
    (gmRun { wBase with gen := .failure none "boom" } rBase).resp.statusOf = 500 ∧
    (gmRun { wBase with gen := .failure none "boom" } rBase).resp.noteOf =
      some "GM SI processing error logged for review" ∧
    (gmRun { wBase with gen := .failure none "boom" } rBase).resp.detailsOf = none := by
  have h := c7_error_classification { wBase with gen := .failure none "boom" } rBase
    "1HGBH41JXMN109186" "Engine" "misfire under load" none "boom"
    rfl rfl rfl (by decide) (by decide) (by decide) rfl (Or.inl (by decide))
  have h500 := h.2.2.2.1 (by decide) (by decide)
  exact ⟨rfl, h.1, h500.1, h500.2.2.1, h.2.2.2.2.1 rfl⟩

/-! ### C10 -/

/-- A validated request reaches the post-validation core. -/
theorem gmRun_eq_core (w : World) (r : Request) (v s n : String)
    (hv : r.vin = some v) (hs : r.system = some s) (hn : r.techNotes = some n)
    (hlen : v.length = 17) (hsne : s ≠ "") (hnne : n ≠ "") :
    gmRun w r = gmCore w r v s n := by
  have hval := validationOk_of_fields r v s n hv hs hn (ne_empty_of_length17 v hlen) hsne hnne
  unfold gmRun
  rw [hval]
  have hget : (r.vin.getD "") = v := by rw [hv]; rfl
  have hlen17 : ((r.vin.getD "").length == 17) = true := by
    rw [hget]
    simpa using hlen
  rw [hlen17]
  simp only [if_true]
  rw [hget]
  rw [show (r.system.getD "") = s by rw [hs]; rfl]
  rw [show (r.techNotes.getD "") = n by rw [hn]; rfl]

/-- The access events of a run carry exactly the middleware's authorized flag,
    which is the `gm-compliance: true` header test. -/
theorem accessList_map_authorized (w : World) (r : Request) :
    (accessList w r).map (fun a => a.authorized) =
      (if isGMRequest r then [r.gmComplianceHeader == some "true"] else []) := by
  unfold accessList
  by_cases h : isGMRequest r = true
  · rw [if_pos h, if_pos h]
    rfl
  · rw [if_neg h, if_neg h]
    rfl

/-- C10: in a successful response, `compliance.authorized` is the
    caller-supplied body flag `complianceTracking.gmAuthorized` (false when
    absent), while the access event in the audit trail derives its authorized
    flag from the `gm-compliance` request header — two independent sources,
    so a single request can be logged authorized yet answered
    `authorized=false`. -/
theorem c10_authorized_divergence (w : World) (r : Request) (v s n c : String)
    (hv : r.vin = some v) (hs : r.system = some s) (hn : r.techNotes = some n)
    (hlen : v.length = 17) (hsne : s ≠ "") (hnne : n ≠ "")
    (hgen : w.gen = .success c) :
    (gmRun w r).resp.authorizedFlag =
      some (match r.complianceTracking with
            | some t => t.gmAuthorized
            | none => false) ∧
    (gmRun w r).trace.accessWrites.map (fun a => a.authorized) =
      (if isGMRequest r then [r.gmComplianceHeader == some "true"] else []) := by
  rw [gmRun_eq_core w r v s n hv hs hn hlen hsne hnne]
  unfold gmCore
  cases hc : cachedOf w (mkCacheKey v s n) with
  | none =>
    unfold gmGenerate
    rw [hgen]
    exact ⟨rfl, accessList_map_authorized w r⟩
  | some cv =>
    by_cases he : (w.enableCache == some "true") = true
    · rw [he]
      simp only [if_true]
      exact ⟨rfl, accessList_map_authorized w r⟩
    · rw [Bool.eq_false_iff.mpr he]
      simp only [Bool.false_eq_true, if_false]
      unfold gmGenerate
      rw [hgen]
      exact ⟨rfl, accessList_map_authorized w r⟩

/-- Witness for C10: the nominal request sends `gm-compliance: true` but no
    `complianceTracking`, so the audit row records authorized while the
    response reports unauthorized. -/
theorem c10_authorized_divergence_witness :
    (gmRun wBase rBase).resp.authorizedFlag = some false ∧
    (gmRun wBase rBase).trace.accessWrites.map (fun a => a.authorized) = [true] := by
  have h := c10_authorized_divergence wBase rBase
    "1HGBH41JXMN109186" "Engine" "misfire under load" "DOC"
    rfl rfl rfl (by decide) (by decide) (by decide) rfl
  refine ⟨h.1, ?_⟩
  rw [h.2]
  decide

/-! ### C2 -/

/-- The nominal world with the cache feature flag unset (its default state:
    nothing in the repository sets `ENABLE_CACHE`). -/
def wNoCache : World := { wBase with enableCache := none }

/-- The world seen by a second call in the no-flag scenario: the first call's
    cache contents, later clock, still within the 3600-second TTL. -/
def wNoCache2 : World :=
  { wNoCache with cache := (gmRun wNoCache rBase).cacheAfter, now := 2000 }

/-- C2 is refuted as stated: with `ENABLE_CACHE` unset, the first call stores
    a cache entry that is still live at the second call, yet the second
    identical call within the TTL invokes the generation adapter again. -/
theorem c2_counterexample :
    (gmRun wNoCache rBase).trace.genCalls = 1 ∧
    (lookupLive (gmRun wNoCache rBase).cacheAfter
      (mkCacheKey "1HGBH41JXMN109186" "Engine" "misfire under load") 2000).isSome = true ∧
    (gmRun wNoCache2 rBase).trace.genCalls = 1 := by
  refine ⟨by decide, by decide, by decide⟩

/-- C2 (amended): provided the cache feature flag `ENABLE_CACHE` is `'true'`
    and the cache store is reachable, a valid request submitted twice within
    the TTL invokes the generation adapter exactly once on the first call and
    stores a cache entry, and the second call returns the identical content
    with the cache-served flag set without invoking the adapter again. -/
theorem c2_amended (w : World) (r : Request) (v s n c : String) (now2 : Nat)
    (hv : r.vin = some v) (hs : r.system = some s) (hn : r.techNotes = some n)
    (hlen : v.length = 17) (hsne : s ≠ "") (hnne : n ≠ "")
    (hredis : w.redisOk = true)
    (hflag : w.enableCache = some "true")
    (hmiss : lookupLive w.cache (mkCacheKey v s n) w.now = none)
    (hgen : w.gen = .success c)
    (httl : now2 < w.now + 3600) :
    (gmRun w r).trace.genCalls = 1 ∧
    (gmRun w r).resp.contentOf = some c ∧
    (gmRun w r).trace.cachePuts.length = 1 ∧
    (gmRun { w with cache := (gmRun w r).cacheAfter, now := now2 } r).trace.genCalls = 0 ∧
    (gmRun { w with cache := (gmRun w r).cacheAfter, now := now2 } r).resp.contentOf = some c ∧
    (gmRun { w with cache := (gmRun w r).cacheAfter, now := now2 } r).resp.cachedFlag =
      some true := by
  have hc1 : cachedOf w (mkCacheKey v s n) = none := by
    unfold cachedOf
    rw [hredis]
    simpa using hmiss
  have hrun1 : gmRun w r = gmGenerate w r v s (mkCacheKey v s n) (accessList w r) false := by
    rw [gmRun_eq_core w r v s n hv hs hn hlen hsne hnne]
    unfold gmCore
    rw [hc1]
  have hafter : (gmRun w r).cacheAfter =
      (mkCacheKey v s n, (⟨c, some (mkGMData v s r.dtcCodes)⟩ : CacheVal),
        w.now + 3600) :: w.cache := by
    rw [hrun1]
    unfold gmGenerate
    rw [hgen]
    simp [hredis]
  have hc2 : cachedOf { w with cache := (gmRun w r).cacheAfter, now := now2 }
      (mkCacheKey v s n) =
      some (⟨c, some (mkGMData v s r.dtcCodes)⟩ : CacheVal) := by
    unfold cachedOf
    dsimp only
    rw [hredis, hafter]
    unfold lookupLive
    simp [List.find?, httl]
  have hrun2 : gmRun { w with cache := (gmRun w r).cacheAfter, now := now2 } r =
      gmCore { w with cache := (gmRun w r).cacheAfter, now := now2 } r v s n :=
    gmRun_eq_core _ r v s n hv hs hn hlen hsne hnne
  refine ⟨?_, ?_, ?_, ?_, ?_, ?_⟩
  · rw [hrun1]; unfold gmGenerate; rw [hgen]
  · rw [hrun1]; unfold gmGenerate; rw [hgen]; rfl
  · rw [hrun1]; unfold gmGenerate; rw [hgen]; rfl
  · rw [hrun2]
    unfold gmCore
    rw [hc2]
    have he : (({ w with cache := (gmRun w r).cacheAfter, now := now2 } : World).enableCache ==
        some "true") = true := by
      dsimp only
      rw [hflag]
      rfl
    rw [he]
    rfl
  · rw [hrun2]
    unfold gmCore
    rw [hc2]
    have he : (({ w with cache := (gmRun w r).cacheAfter, now := now2 } : World).enableCache ==
        some "true") = true := by
      dsimp only
      rw [hflag]
      rfl
    rw [he]
    rfl
  · rw [hrun2]
    unfold gmCore
    rw [hc2]
    have he : (({ w with cache := (gmRun w r).cacheAfter, now := now2 } : World).enableCache ==
        some "true") = true := by
      dsimp only
      rw [hflag]
      rfl
    rw [he]
    rfl

/-- Witness for the amended C2 at the nominal world (flag on, Redis up,
    deterministic adapter), second call 1000 seconds after the first. -/
theorem c2_amended_witness :
    (gmRun wBase rBase).trace.genCalls = 1 ∧
    (gmRun wBase rBase).resp.contentOf = some "DOC" ∧
    (gmRun wBase rBase).trace.cachePuts.length = 1 ∧
    (gmRun { wBase with cache := (gmRun wBase rBase).cacheAfter, now := 2000 } rBase).trace.genCalls = 0 ∧
    (gmRun { wBase with cache := (gmRun wBase rBase).cacheAfter, now := 2000 } rBase).resp.contentOf = some "DOC" ∧
    (gmRun { wBase with cache := (gmRun wBase rBase).cacheAfter, now := 2000 } rBase).resp.cachedFlag =
      some true :=
  c2_amended wBase rBase "1HGBH41JXMN109186" "Engine" "misfire under load" "DOC" 2000
    rfl rfl rfl (by decide) (by decide) (by decide) rfl rfl rfl rfl (by decide)

/-! ### C3 -/

/-- The last-4 slice of a 17-character identifier has exactly 4 characters. -/
theorem sliceLast4_length (v : String) (h : v.length = 17) : (sliceLast4 v).length = 4 := by
  have hd : v.data.length = 17 := h
  show (v.data.drop (v.data.length - 4)).length = 4
  rw [List.length_drop]
  omega

/-- Rows reaching the audit store are among the attempted rows. -/
theorem mem_dbList {α : Type} (w : World) (l : List α) (u : α) (h : u ∈ dbList w l) :
    u ∈ l := by
  unfold dbList at h
  by_cases hdb : w.dbOk = true
  · rwa [if_pos hdb] at h
  · rw [if_neg hdb] at h
    exact absurd h (List.not_mem_nil u)

/-- Every run persists either no usage row or the single run-specific usage
    row (possibly dropped by an unreachable store). -/
theorem gmRun_dbUsage_shape (w : World) (r : Request) :
    (gmRun w r).dbUsage = [] ∨
    ∃ flag, (gmRun w r).dbUsage =
      dbList w [usageRowOf r (r.vin.getD "") (r.system.getD "") flag] := by
  unfold gmRun
  by_cases hval : validationOk r = true
  · rw [hval]
    by_cases hlen : ((r.vin.getD "").length == 17) = true
    · rw [hlen]
      simp only [if_true]
      unfold gmCore
      cases hc : cachedOf w (mkCacheKey (r.vin.getD "") (r.system.getD "") (r.techNotes.getD "")) with
      | some cv =>
        by_cases he : (w.enableCache == some "true") = true
        · rw [he]
          exact Or.inr ⟨true, rfl⟩
        · rw [Bool.eq_false_iff.mpr he]
          simp only [Bool.false_eq_true, if_false]
          unfold gmGenerate
          cases hg : w.gen with
          | failure c m => exact Or.inl rfl
          | success c => exact Or.inr ⟨true, rfl⟩
      | none =>
        unfold gmGenerate
        cases hg : w.gen with
        | failure c m => exact Or.inl rfl
        | success c => exact Or.inr ⟨false, rfl⟩
    · rw [Bool.eq_false_iff.mpr hlen]
      exact Or.inl rfl
  · rw [Bool.eq_false_iff.mpr hval]
    exact Or.inl rfl

/-- Every usage row a run persists carries the last-4 slice of the request's
    vehicle identifier in its `vin_last4` column. -/
theorem gmRun_dbUsage_vinLast4 (w : World) (r : Request) (v : String)
    (hv : r.vin = some v) :
    ∀ u ∈ (gmRun w r).dbUsage, u.vinLast4 = sliceLast4 v := by
  intro u hu
  rcases gmRun_dbUsage_shape w r with h | ⟨flag, h⟩
  · rw [h] at hu
    exact absurd hu (List.not_mem_nil u)
  · rw [h] at hu
    have hu' : u = usageRowOf r (r.vin.getD "") (r.system.getD "") flag := by
      simpa using mem_dbList w _ u hu
    rw [hu']
    show sliceLast4 (r.vin.getD "") = sliceLast4 v
    rw [hv]
    rfl

/-- Every run's persisted access rows are the middleware's, which never
    mention the vehicle identifier. -/
theorem gmRun_dbAccess_eq (w : World) (r : Request) :
    (gmRun w r).dbAccess = dbList w (accessList w r) := by
  unfold gmRun
  by_cases hval : validationOk r = true
  · rw [hval]
    by_cases hlen : ((r.vin.getD "").length == 17) = true
    · rw [hlen]
      simp only [if_true]
      unfold gmCore
      cases hc : cachedOf w (mkCacheKey (r.vin.getD "") (r.system.getD "") (r.techNotes.getD "")) with
      | some cv =>
        by_cases he : (w.enableCache == some "true") = true
        · rw [he]
          rfl
        · rw [Bool.eq_false_iff.mpr he]
          simp only [Bool.false_eq_true, if_false]
          unfold gmGenerate
          cases hg : w.gen <;> rfl
      | none =>
        unfold gmGenerate
        cases hg : w.gen <;> rfl
    · rw [Bool.eq_false_iff.mpr hlen]
      rfl
  · rw [Bool.eq_false_iff.mpr hval]
    rfl

/-- C3: the audit trail depends on the vehicle identifier only through its
    last 4 characters: two otherwise-identical valid requests whose 17-char
    identifiers agree on their last 4 characters (and whose cache lookups
    agree on hit/miss) persist identical access rows and identical usage
    rows, every persisted usage row's `vin_last4` column is exactly the
    4-character suffix, and access rows never mention the identifier at all —
    so the full identifier is never persisted. -/
theorem c3_audit_vin_truncation (w : World) (r : Request) (v1 v2 : String)
    (hv1 : r.vin = some v1) (hl1 : v1.length = 17) (hl2 : v2.length = 17)
    (hlast : sliceLast4 v1 = sliceLast4 v2)
    (hiso : (cachedOf w (mkCacheKey v1 (r.system.getD "") (r.techNotes.getD ""))).isSome =
        (cachedOf w (mkCacheKey v2 (r.system.getD "") (r.techNotes.getD ""))).isSome) :
    (gmRun w r).dbAccess = (gmRun w { r with vin := some v2 }).dbAccess ∧
    (gmRun w r).dbUsage = (gmRun w { r with vin := some v2 }).dbUsage ∧
    (∀ u ∈ (gmRun w r).dbUsage,
      u.vinLast4 = sliceLast4 v1 ∧ u.vinLast4.length = 4) ∧
    (∀ u ∈ (gmRun w { r with vin := some v2 }).dbUsage, u.vinLast4 = sliceLast4 v2) := by
  have hvne1 : v1 ≠ "" := ne_empty_of_length17 v1 hl1
  have hvne2 : v2 ≠ "" := ne_empty_of_length17 v2 hl2
  refine ⟨?_, ?_, ?_, ?_⟩
  · rw [gmRun_dbAccess_eq w r, gmRun_dbAccess_eq w { r with vin := some v2 }]
    rfl
  · have htv1 : jsTruthy r.vin = true := by rw [hv1]; simp [jsTruthy, hvne1]
    have htv2 : jsTruthy (some v2) = true := by simp [jsTruthy, hvne2]
    by_cases hval : validationOk r = true
    · have hval2 : validationOk { r with vin := some v2 } = true := by
        simp only [validationOk, htv1, Bool.true_and] at hval
        show (jsTruthy (some v2) && jsTruthy r.system && jsTruthy r.techNotes) = true
        simp [htv2, hval]
      have h1 : gmRun w r = gmCore w r v1 (r.system.getD "") (r.techNotes.getD "") := by
        unfold gmRun
        rw [hval]
        have hg : r.vin.getD "" = v1 := by rw [hv1]; rfl
        rw [show ((r.vin.getD "").length == 17) = true by rw [hg]; simpa using hl1]
        simp only [if_true]
        rw [hg]
      have h2 : gmRun w { r with vin := some v2 } =
          gmCore w { r with vin := some v2 } v2 (r.system.getD "") (r.techNotes.getD "") := by
        unfold gmRun
        rw [hval2]
        rw [show ((({ r with vin := some v2 } : Request).vin.getD "").length == 17) = true by
          simpa using hl2]
        simp only [if_true]
        rfl
      rw [h1, h2]
      unfold gmCore
      cases hc1 : cachedOf w (mkCacheKey v1 (r.system.getD "") (r.techNotes.getD "")) with
      | none =>
        cases hc2 : cachedOf w (mkCacheKey v2 (r.system.getD "") (r.techNotes.getD "")) with
        | none =>
          unfold gmGenerate
          cases hg : w.gen with
          | failure c m => rfl
          | success c =>
            show dbList w [usageRowOf r v1 (r.system.getD "") false] =
              dbList w [usageRowOf { r with vin := some v2 } v2 (r.system.getD "") false]
            have hrow : usageRowOf { r with vin := some v2 } v2 (r.system.getD "") false =
                usageRowOf r v1 (r.system.getD "") false := by
              unfold usageRowOf
              rw [← hlast]
            rw [hrow]
        | some cv2 =>
          rw [hc1, hc2] at hiso
          simp at hiso
      | some cv1 =>
        cases hc2 : cachedOf w (mkCacheKey v2 (r.system.getD "") (r.techNotes.getD "")) with
        | none =>
          rw [hc1, hc2] at hiso
          simp at hiso
        | some cv2 =>
          by_cases he : (w.enableCache == some "true") = true
          · rw [he]
            simp only [if_true]
            show dbList w [usageRowOf r v1 (r.system.getD "") true] =
              dbList w [usageRowOf { r with vin := some v2 } v2 (r.system.getD "") true]
            have hrow : usageRowOf { r with vin := some v2 } v2 (r.system.getD "") true =
                usageRowOf r v1 (r.system.getD "") true := by
              unfold usageRowOf
              rw [← hlast]
            rw [hrow]
          · rw [Bool.eq_false_iff.mpr he]
            simp only [Bool.false_eq_true, if_false]
            unfold gmGenerate
            cases hg : w.gen with
            | failure c m => rfl
            | success c =>
              show dbList w [usageRowOf r v1 (r.system.getD "") true] =
                dbList w [usageRowOf { r with vin := some v2 } v2 (r.system.getD "") true]
              have hrow : usageRowOf { r with vin := some v2 } v2 (r.system.getD "") true =
                  usageRowOf r v1 (r.system.getD "") true := by
                unfold usageRowOf
                rw [← hlast]
              rw [hrow]
    · have hvalf : validationOk r = false := Bool.eq_false_iff.mpr hval
      have hrest : (jsTruthy r.system && jsTruthy r.techNotes) = false := by
        simp only [validationOk, htv1, Bool.true_and] at hvalf
        exact hvalf
      have hval2 : validationOk { r with vin := some v2 } = false := by
        show (jsTruthy (some v2) && jsTruthy r.system && jsTruthy r.techNotes) = false
        simp [htv2, hrest]
      unfold gmRun
      rw [hvalf, hval2]
      rfl
  · intro u hu
    refine ⟨gmRun_dbUsage_vinLast4 w r v1 hv1 u hu, ?_⟩
    rw [gmRun_dbUsage_vinLast4 w r v1 hv1 u hu]
    exact sliceLast4_length v1 hl1
  · exact gmRun_dbUsage_vinLast4 w { r with vin := some v2 } v2 rfl

/-- Witness for C3: two identifiers sharing only the suffix `9186`, on the
    nominal world, persist identical audit rows with `vin_last4 = "9186"`. -/
theorem c3_audit_vin_truncation_witness :
    sliceLast4 "1HGBH41JXMN109186" = sliceLast4 "AAAAAAAAAAAAA9186" ∧
    ((gmRun wBase rBase).dbAccess =
        (gmRun wBase { rBase with vin := some "AAAAAAAAAAAAA9186" }).dbAccess ∧
      (gmRun wBase rBase).dbUsage =
        (gmRun wBase { rBase with vin := some "AAAAAAAAAAAAA9186" }).dbUsage ∧
      (∀ u ∈ (gmRun wBase rBase).dbUsage,
        u.vinLast4 = sliceLast4 "1HGBH41JXMN109186" ∧ u.vinLast4.length = 4) ∧
      (∀ u ∈ (gmRun wBase { rBase with vin := some "AAAAAAAAAAAAA9186" }).dbUsage,
        u.vinLast4 = sliceLast4 "AAAAAAAAAAAAA9186")) :=
  ⟨by decide,
    c3_audit_vin_truncation wBase rBase "1HGBH41JXMN109186" "AAAAAAAAAAAAA9186"
      rfl (by decide) (by decide) (by decide) (by decide)⟩

end WriteProRO
